import Mathlib

/-
Verification of the command-runner/reporter script `src/debug_wasm.py`.

The script performs a single `subprocess.run` call with a hard-coded argument
vector and working directory, capturing both output streams as text, and then
prints three labeled blocks (captured stdout, captured stderr, return code)
with five `print` calls.  The printing code is embedded directly from the
source; the operating-system facility behind `subprocess.run` (directory
existence, executable resolution, child-process behaviour) is external to the
repository and is modelled from the spec as an explicit parameter.
-/

namespace DebugWasm

/-- The value produced by `subprocess.run(..., capture_output=True, text=True)`
(`src/debug_wasm.py` line 6, the `result` variable): complete captured standard
output text, complete captured standard error text, and the integer return
code of the terminated child process. -/
structure ProcessResult where
  stdout : String
  stderr : String
  returncode : Int
  deriving Repr, DecidableEq

/-- Launch-phase failures of the Runner: the working directory is missing or
the executable cannot be resolved.  Raised before any child process exists. -/
inductive LaunchError where
  | workingDirMissing
  | executableNotFound
  deriving Repr, DecidableEq

/-- The two output streams of the invoking (wrapper) process: everything the
wrapper has written to its own standard output and standard error. -/
structure Console where
  out : String
  err : String
  deriving Repr, DecidableEq

/-- A console on which nothing has been written yet. -/
def Console.empty : Console := ⟨"", ""⟩

/-- Python `print(s)`: writes `s` followed by a newline to the standard output
of the invoking process; the standard error stream is untouched. -/
def printLine (s : String) (c : Console) : Console :=
  ⟨c.out ++ s ++ "\n", c.err⟩

/-- Modelled from the spec: the operating-system facility behind
`subprocess.run`, which the source only invokes — which working-directory
paths exist, which executable names resolve via the standard search mechanism,
and what a deterministic child process invoked with a given argument vector in
a given working directory produces once it has terminated. -/
structure OSModel where
  dirExists : String → Bool
  execFound : String → Bool
  runChild : List String → String → ProcessResult

/-- Whether the first element of the argument vector names an executable the
environment can resolve (an empty argument vector resolves nothing). -/
def execResolves (os : OSModel) (argv : List String) : Bool :=
  match argv with
  | [] => false
  | e :: _ => os.execFound e

/-- Modelled from the spec: `subprocess.run(argv, capture_output=True,
text=True, cwd=cwd)` (`src/debug_wasm.py` lines 6-8).  If the working
directory does not exist, or the executable cannot be found, it fails with a
`LaunchError` before any child process is spawned; otherwise it spawns the
child, waits synchronously for its termination, and returns the complete
`ProcessResult`.  The boolean records whether a child process was spawned. -/
def subprocessRun (os : OSModel) (argv : List String) (cwd : String) :
    Except LaunchError ProcessResult × Bool :=
  if os.dirExists cwd = false then (.error .workingDirMissing, false)
  else if execResolves os argv = false then (.error .executableNotFound, false)
  else (.ok (os.runChild argv cwd), true)

/-- The argument vector hard-coded in `src/debug_wasm.py` lines 6-8. -/
def scriptArgv : List String :=
  ["cargo", "test", "stdlib::numeric_ops::tests::test_add", "--", "--nocapture"]

/-- The working directory hard-coded in `src/debug_wasm.py` line 8. -/
def scriptCwd : String := "/Users/earcandy/Documents/Dev/Clean Language"

/-- The reporting step of `src/debug_wasm.py` (lines 10-14): the five `print`
calls, applied in source order.  The last call prints the f-string
`"\nReturn code: "` followed by the decimal rendering of the return code. -/
def reportResult (r : ProcessResult) (c : Console) : Console :=
  printLine ("\nReturn code: " ++ toString r.returncode)
    (printLine r.stderr
      (printLine "\nSTDERR:"
        (printLine r.stdout
          (printLine "STDOUT:" c))))

/-- The full text the reporting step writes to the wrapper's standard output,
starting from an empty console. -/
def reportText (r : ProcessResult) : String :=
  (reportResult r Console.empty).out

/-- The observable outcome of one run of the script: the wrapper's console,
whether a child process was spawned, the result of the `subprocess.run` call,
and the wrapper's own exit status. -/
structure ScriptOutcome where
  console : Console
  spawned : Bool
  result : Except LaunchError ProcessResult
  exitStatus : Int
  deriving Repr

/-- The whole script (`src/debug_wasm.py`), generalized over the argument
vector and working directory it hard-codes: run `subprocessRun`, then print
the report.  On success the script runs to completion and the interpreter
exits with status 0 (the source never touches its own exit status); a
`LaunchError` is unhandled, so nothing is printed by the script's own code and
the interpreter terminates with the nonzero status 1 (interpreter behaviour
modelled from the spec). -/
def runScript (os : OSModel) (argv : List String) (cwd : String) (c : Console) :
    ScriptOutcome :=
  match subprocessRun os argv cwd with
  | (.ok r, sp) => ⟨reportResult r c, sp, .ok r, 0⟩
  | (.error e, sp) => ⟨c, sp, .error e, 1⟩

/-- The script exactly as written: `runScript` at the hard-coded argument
vector and working directory. -/
def debugWasmMain (os : OSModel) (c : Console) : ScriptOutcome :=
  runScript os scriptArgv scriptCwd c

/-- Modelled from the spec: an operating system with observable world state,
used for the idempotence property — a child process may read the world and
rewrite it. -/
structure WorldOS (World : Type) where
  dirExists : String → Bool
  execFound : String → Bool
  child : List String → String → World → ProcessResult × World

/-- One `subprocess.run` invocation against a stateful world: fails before
spawning when the working directory is missing or the executable does not
resolve (hence the world is unchanged), otherwise runs the child, which may
update the world. -/
def WorldOS.runOnce {W : Type} (os : WorldOS W) (argv : List String)
    (cwd : String) (w : W) : Except LaunchError ProcessResult × W :=
  if os.dirExists cwd = false then (.error .workingDirMissing, w)
  else
    match argv with
    | [] => (.error .executableNotFound, w)
    | e :: _ =>
      if os.execFound e = false then (.error .executableNotFound, w)
      else
        let p := os.child argv cwd w
        (.ok p.1, p.2)

/-- Two consecutive invocations with identical argument vector and working
directory; the second starts from the world the first left behind.  Returns
the two results. -/
def WorldOS.runTwice {W : Type} (os : WorldOS W) (argv : List String)
    (cwd : String) (w : W) :
    Except LaunchError ProcessResult × Except LaunchError ProcessResult :=
  let first := os.runOnce argv cwd w
  let second := os.runOnce argv cwd first.2
  (first.1, second.1)

/-- The child program is side-effect-free: running it leaves the world
exactly as it found it. -/
def SideEffectFree {W : Type} (os : WorldOS W) : Prop :=
  ∀ argv cwd w, (os.child argv cwd w).2 = w

/-- String `t` occurs as a contiguous substring of `s`. -/
def ContainsSubstr (s t : String) : Prop :=
  ∃ a b : String, s = a ++ t ++ b

/-- Modelled from the spec: an operating system in which every directory
exists, every executable resolves, and the child process (the `echo hello`
scenario) writes `"hello\n"` to its standard output, nothing to its standard
error, and exits 0. -/
def echoOS : OSModel :=
  ⟨fun _ => true, fun _ => true, fun _ _ => ⟨"hello\n", "", 0⟩⟩

/-- Modelled from the spec: an operating system in which no directory path
exists, so every working directory is invalid. -/
def noDirOS : OSModel :=
  ⟨fun _ => false, fun _ => true, fun _ _ => ⟨"", "", 0⟩⟩

/-- Modelled from the spec: an operating system for the
`ls /definitely/does/not/exist` scenario — the child writes nothing to its
standard output, a diagnostic to its standard error, and exits 2. -/
def lsFailOS : OSModel :=
  ⟨fun _ => true, fun _ => true,
    fun _ _ => ⟨"", "ls: /definitely/does/not/exist: No such file or directory\n", 2⟩⟩

/-- Modelled from the spec: a stateful operating system whose child program is
side-effect-free and deterministic, always producing the same result and
leaving the world untouched. -/
def pureWorldOS : WorldOS Nat :=
  ⟨fun _ => true, fun _ => true, fun _ _ w => (⟨"a", "b", 0⟩, w)⟩

/-! ### Helper lemmas -/

/-- Merging two adjacent literal segments of a right-nested concatenation. -/
theorem append_merge (a b c : String) (h : a ++ b = c) (s : String) :
    a ++ (b ++ s) = c ++ s := by
  rw [← String.append_assoc, h]

/-- Closed form of the text the reporting step appends to the wrapper's
standard output. -/
theorem reportResult_out (r : ProcessResult) (c : Console) :
    (reportResult r c).out =
      c.out ++ ("STDOUT:\n" ++ r.stdout ++ "\n\nSTDERR:\n" ++ r.stderr ++
        "\n\nReturn code: " ++ toString r.returncode ++ "\n") := by
  simp only [reportResult, printLine, String.append_assoc]
  simp only [append_merge "STDOUT:" "\n" "STDOUT:\n" rfl,
    append_merge "\n" "\nSTDERR:" "\n\nSTDERR:" rfl,
    append_merge "\n\nSTDERR:" "\n" "\n\nSTDERR:\n" rfl,
    append_merge "\n" "\nReturn code: " "\n\nReturn code: " rfl]

/-- The reporting step never touches the wrapper's standard error stream. -/
theorem reportResult_err (r : ProcessResult) (c : Console) :
    (reportResult r c).err = c.err := rfl

/-- Closed form of the full report text from an empty console. -/
theorem reportText_eq (r : ProcessResult) :
    reportText r = "STDOUT:\n" ++ r.stdout ++ "\n\nSTDERR:\n" ++ r.stderr ++
      "\n\nReturn code: " ++ toString r.returncode ++ "\n" := by
  rw [reportText, reportResult_out]
  rfl

/-- On a successful launch, `subprocessRun` returns the child's result and
records that a child was spawned. -/
theorem subprocessRun_ok (os : OSModel) (argv : List String) (cwd : String)
    (hdir : os.dirExists cwd = true) (hexec : execResolves os argv = true) :
    subprocessRun os argv cwd = (.ok (os.runChild argv cwd), true) := by
  simp [subprocessRun, hdir, hexec]

/-- On a successful launch, the script prints the report and exits 0. -/
theorem runScript_ok (os : OSModel) (argv : List String) (cwd : String)
    (c : Console) (hdir : os.dirExists cwd = true)
    (hexec : execResolves os argv = true) :
    runScript os argv cwd c =
      ⟨reportResult (os.runChild argv cwd) c, true, .ok (os.runChild argv cwd), 0⟩ := by
  rw [runScript, subprocessRun_ok os argv cwd hdir hexec]

/-! ### Claims -/

/-- C1 (counterexample): in the `echo hello` scenario the run does yield
`ProcessResult ⟨"hello\n", "", 0⟩`, but the printed report is NOT the block
claimed by the spec (`STDOUT:`, `hello`, one blank line, `STDERR:`, two blank
lines, `Return code: 0`): the report has two blank lines between `hello` and
`STDERR:`, not one. -/
theorem c1_echo_report_counterexample :
    (runScript echoOS ["echo", "hello"] "/tmp" Console.empty).result =
        .ok ⟨"hello\n", "", 0⟩ ∧
      (runScript echoOS ["echo", "hello"] "/tmp" Console.empty).console.out ≠
        "STDOUT:\nhello\n\nSTDERR:\n\n\nReturn code: 0\n" :=
  ⟨rfl, by decide⟩

/-- C1 (amended): when the argument vector is `["echo", "hello"]` and the
working directory is a valid existing directory, the run yields
`ProcessResult ⟨"hello\n", "", 0⟩` and the printed report is exactly
`STDOUT:` newline `hello` newline blank-line blank-line `STDERR:` newline
blank-line blank-line `Return code: 0` newline: the captured stdout text ends
in its own newline, printing it appends a second, and the separator before
`STDERR:` supplies a third, so two blank lines separate `hello` from
`STDERR:`. -/
theorem c1_echo_report (os : OSModel) (cwd : String)
    (hdir : os.dirExists cwd = true) (hexec : os.execFound "echo" = true)
    (hchild : os.runChild ["echo", "hello"] cwd = ⟨"hello\n", "", 0⟩) :
    (runScript os ["echo", "hello"] cwd Console.empty).result =
        .ok ⟨"hello\n", "", 0⟩ ∧
      (runScript os ["echo", "hello"] cwd Console.empty).console.out =
        "STDOUT:\nhello\n\n\nSTDERR:\n\n\nReturn code: 0\n" := by
  rw [runScript_ok os ["echo", "hello"] cwd Console.empty hdir hexec, hchild]
  exact ⟨rfl, by decide⟩

/-- C1 (witness for the amended claim), at the concrete `echo hello`
operating-system model and working directory `/tmp`. -/
theorem c1_echo_report_witness :
    (runScript echoOS ["echo", "hello"] "/tmp" Console.empty).result =
        .ok ⟨"hello\n", "", 0⟩ ∧
      (runScript echoOS ["echo", "hello"] "/tmp" Console.empty).console.out =
        "STDOUT:\nhello\n\n\nSTDERR:\n\n\nReturn code: 0\n" :=
  c1_echo_report echoOS "/tmp" rfl rfl rfl

/-- C2: for every `ProcessResult`, the reporting step writes to the invoking
process's standard output exactly the concatenation, in this literal order, of
the labeled blocks: the label `STDOUT:` followed by the captured
standard-output text verbatim; a blank line, then `STDERR:` followed by the
captured standard-error text verbatim; a blank line, then `Return code: `
followed by the decimal exit code — and nothing else. -/
theorem c2_report_blocks (r : ProcessResult) :
    reportText r =
      ("STDOUT:\n" ++ r.stdout ++ "\n") ++
        ("\n" ++ "STDERR:\n" ++ r.stderr ++ "\n") ++
        ("\n" ++ "Return code: " ++ toString r.returncode ++ "\n") := by
  rw [reportText_eq]
  simp only [String.append_assoc]
  simp only [append_merge "\n" "\n" "\n\n" rfl,
    append_merge "\n\n" "STDERR:\n" "\n\nSTDERR:\n" rfl,
    append_merge "\n\n" "Return code: " "\n\nReturn code: " rfl]

/-- C3: if the supplied working directory does not exist, the run fails with a
`LaunchError` before any child process is spawned, and nothing of the report
is printed: the wrapper's console is exactly as it was. -/
theorem c3_missing_workdir (os : OSModel) (argv : List String) (cwd : String)
    (c : Console) (hdir : os.dirExists cwd = false) :
    (runScript os argv cwd c).result = .error .workingDirMissing ∧
      (runScript os argv cwd c).spawned = false ∧
      (runScript os argv cwd c).console = c := by
  have h1 : subprocessRun os argv cwd = (.error .workingDirMissing, false) := by
    simp [subprocessRun, hdir]
  rw [runScript, h1]
  exact ⟨rfl, rfl, rfl⟩

/-- C3 (witness): the script's own hard-coded argument vector and working
directory, on a machine where that absolute path does not exist. -/
theorem c3_missing_workdir_witness :
    (runScript noDirOS scriptArgv scriptCwd Console.empty).result =
        .error .workingDirMissing ∧
      (runScript noDirOS scriptArgv scriptCwd Console.empty).spawned = false ∧
      (runScript noDirOS scriptArgv scriptCwd Console.empty).console =
        Console.empty :=
  c3_missing_workdir noDirOS scriptArgv scriptCwd Console.empty rfl

/-- C4: a child process that terminates with a non-zero exit code is not an
error: the run still returns its `ProcessResult` as ordinary data, and the
full report — stdout block, stderr block and return-code line — is still
printed. -/
theorem c4_nonzero_exit_reported (os : OSModel) (argv : List String)
    (cwd : String) (hdir : os.dirExists cwd = true)
    (hexec : execResolves os argv = true)
    (_hcode : (os.runChild argv cwd).returncode ≠ 0) :
    (runScript os argv cwd Console.empty).result = .ok (os.runChild argv cwd) ∧
      (runScript os argv cwd Console.empty).console.out =
        "STDOUT:\n" ++ (os.runChild argv cwd).stdout ++ "\n\nSTDERR:\n" ++
          (os.runChild argv cwd).stderr ++ "\n\nReturn code: " ++
          toString (os.runChild argv cwd).returncode ++ "\n" := by
  rw [runScript_ok os argv cwd Console.empty hdir hexec]
  exact ⟨rfl, reportText_eq (os.runChild argv cwd)⟩

/-- C4 (witness): the `ls /definitely/does/not/exist` scenario, exit code 2. -/
theorem c4_nonzero_exit_reported_witness :
    (runScript lsFailOS ["ls", "/definitely/does/not/exist"] "/tmp"
          Console.empty).result =
        .ok (lsFailOS.runChild ["ls", "/definitely/does/not/exist"] "/tmp") ∧
      (runScript lsFailOS ["ls", "/definitely/does/not/exist"] "/tmp"
            Console.empty).console.out =
        "STDOUT:\n" ++
          (lsFailOS.runChild ["ls", "/definitely/does/not/exist"] "/tmp").stdout
          ++ "\n\nSTDERR:\n" ++
          (lsFailOS.runChild ["ls", "/definitely/does/not/exist"] "/tmp").stderr
          ++ "\n\nReturn code: " ++
          toString (lsFailOS.runChild
            ["ls", "/definitely/does/not/exist"] "/tmp").returncode ++ "\n" :=
  c4_nonzero_exit_reported lsFailOS ["ls", "/definitely/does/not/exist"] "/tmp"
    rfl rfl (by decide)

/-- C5: whenever the child process terminates — whatever its exit code — the
wrapper's own exit status is 0: the child's exit code is never propagated. -/
theorem c5_wrapper_exits_zero (os : OSModel) (argv : List String)
    (cwd : String) (c : Console) (hdir : os.dirExists cwd = true)
    (hexec : execResolves os argv = true) :
    (runScript os argv cwd c).exitStatus = 0 := by
  rw [runScript_ok os argv cwd c hdir hexec]

/-- C5 (witness): even with a child that exits 2, the wrapper exits 0. -/
theorem c5_wrapper_exits_zero_witness :
    (runScript lsFailOS ["ls", "/definitely/does/not/exist"] "/tmp"
      Console.empty).exitStatus = 0 :=
  c5_wrapper_exits_zero lsFailOS ["ls", "/definitely/does/not/exist"] "/tmp"
    Console.empty rfl rfl

/-- C6: for a child that writes a known string `S` to its standard output and
exits 0, the printed report contains the literal substring `"STDOUT:\n" ++ S`
and the literal substring `"Return code: 0"`. -/
theorem c6_report_substrings (S : String) (r : ProcessResult)
    (hS : r.stdout = S) (h0 : r.returncode = 0) :
    ContainsSubstr (reportText r) ("STDOUT:\n" ++ S) ∧
      ContainsSubstr (reportText r) "Return code: 0" := by
  subst hS
  have ht : toString (0 : Int) = "0" := rfl
  constructor
  · refine ⟨"", "\n\nSTDERR:\n" ++ r.stderr ++ "\n\nReturn code: " ++
      toString r.returncode ++ "\n", ?_⟩
    rw [reportText_eq]
    simp only [String.append_assoc]
    rfl
  · refine ⟨"STDOUT:\n" ++ r.stdout ++ "\n\nSTDERR:\n" ++ r.stderr ++ "\n\n",
      "\n", ?_⟩
    rw [reportText_eq, h0, ht]
    simp only [String.append_assoc]
    simp only [append_merge "\n\nReturn code: " "0" "\n\nReturn code: 0" rfl,
      append_merge "\n\n" "Return code: 0" "\n\nReturn code: 0" rfl]

/-- C6 (witness): the `echo hello` output `"hello\n"` with exit code 0. -/
theorem c6_report_substrings_witness :
    ContainsSubstr (reportText ⟨"hello\n", "", 0⟩) ("STDOUT:\n" ++ "hello\n") ∧
      ContainsSubstr (reportText ⟨"hello\n", "", 0⟩) "Return code: 0" :=
  c6_report_substrings "hello\n" ⟨"hello\n", "", 0⟩ rfl rfl

/-- C7: for any argument vector whose executable resolves and any existing
working directory, the run always yields a `ProcessResult` — the complete
captured texts and the defined integer exit code of the terminated child — and
a child was spawned: the success path is total. -/
theorem c7_success_total (os : OSModel) (argv : List String) (cwd : String)
    (hdir : os.dirExists cwd = true) (hexec : execResolves os argv = true) :
    (subprocessRun os argv cwd).1 = .ok (os.runChild argv cwd) ∧
      (subprocessRun os argv cwd).2 = true := by
  rw [subprocessRun_ok os argv cwd hdir hexec]
  exact ⟨rfl, rfl⟩

/-- C7 (witness): the `echo hello` scenario succeeds with the child's
result. -/
theorem c7_success_total_witness :
    (subprocessRun echoOS ["echo", "hello"] "/tmp").1 =
        .ok (echoOS.runChild ["echo", "hello"] "/tmp") ∧
      (subprocessRun echoOS ["echo", "hello"] "/tmp").2 = true :=
  c7_success_total echoOS ["echo", "hello"] "/tmp" rfl rfl

/-- C8: invoking the Runner twice with identical argument vector and working
directory against a side-effect-free deterministic child yields identical
results — identical standard-output text, standard-error text and exit
code. -/
theorem c8_idempotent {W : Type} (os : WorldOS W) (argv : List String)
    (cwd : String) (w : W) (hfree : SideEffectFree os) :
    (os.runTwice argv cwd w).1 = (os.runTwice argv cwd w).2 := by
  unfold WorldOS.runTwice WorldOS.runOnce
  by_cases hd : os.dirExists cwd = false
  · simp [hd]
  · simp only [hd, if_false]
    match argv with
    | [] => rfl
    | e :: t =>
      by_cases he : os.execFound e = false
      · simp [he]
      · simp [he, hfree argv cwd w, hfree (e :: t) cwd w]

/-- C8 (witness): two runs of a concrete side-effect-free child coincide. -/
theorem c8_idempotent_witness :
    (pureWorldOS.runTwice ["echo", "hello"] "/tmp" 0).1 =
      (pureWorldOS.runTwice ["echo", "hello"] "/tmp" 0).2 :=
  c8_idempotent pureWorldOS ["echo", "hello"] "/tmp" 0 (fun _ _ _ => rfl)

/-- C9: for every `ProcessResult` with fields `(out, err, code)`, the full
text the wrapper prints equals exactly
`"STDOUT:\n" ++ out ++ "\n\nSTDERR:\n" ++ err ++ "\n\nReturn code: " ++
decimal code ++ "\n"`: each captured stream goes through a newline-appending
print, so one extra newline follows each captured text beyond its own content,
and an empty captured stream still produces a blank line. -/
theorem c9_report_format (r : ProcessResult) :
    reportText r = "STDOUT:\n" ++ r.stdout ++ "\n\nSTDERR:\n" ++ r.stderr ++
      "\n\nReturn code: " ++ toString r.returncode ++ "\n" :=
  reportText_eq r

/-- C10: everything the wrapper itself emits goes to the invoking process's
standard output; whatever the child produced and however it exited, the
wrapper's own standard error stream is never written. -/
theorem c10_no_wrapper_stderr (os : OSModel) (argv : List String)
    (cwd : String) (c : Console) :
    (runScript os argv cwd c).console.err = c.err := by
  rw [runScript]
  rcases h : subprocessRun os argv cwd with ⟨res, sp⟩
  cases res
  · rfl
  · rfl

end DebugWasm
